import Mathlib

/-!
# ALK-VisDock: verification of the build pipeline against its specification

Shallow embedding of the Python package `alk_visdock` (files `build.py`,
`models.py`, `utils/io.py`, `docking/vina.py`, `docking/swissdock.py`,
`__main__.py`).  Python dicts are modelled as association lists, JSON values
by the inductive `Val`, exceptions by `Except`, and external effects
(HTTP calls, subprocesses, the filesystem) by oracle records whose fields
hold the outcome the outside world would have produced.  Machine floats never
feed back into control flow in the modelled code, so coordinates and numeric
property values are carried as their string rendering.
-/

namespace ALKVisDock

/-- JSON-ish values stored in the per-ligand dictionaries
(`lig.docking`, `lig.pose`, PubChem property tables). -/
inductive Val where
  | vs (s : String)
  | vnone
  | vtup (t : List String)
  | vdict (d : List (String × Val))
deriving Repr

/-- A fetched PubChem property value (a JSON string or number).  The merge in
`build.py` only ever takes its truthiness and its `str(...)` rendering, so a
number is modelled by that rendering together with whether it equals zero
(the one falsy numeric case in Python). -/
inductive PVal where
  | pstr (s : String)
  | pnum (render : String) (isZero : Bool)
deriving Repr, DecidableEq

/-- Python truthiness (`if v:` / `v or w`) of a property value. -/
def PVal.truthy : PVal → Bool
  | .pstr s => !(s == "")
  | .pnum _ z => !z

/-- Rendering `str(v)` of a property value. -/
def PVal.render : PVal → String
  | .pstr s => s
  | .pnum r _ => r

/-- A PubChem property row (`PropertyTable.Properties[0]`), as returned by
`pubchem.props_by_cid` / `pubchem.props_by_smiles`. -/
abbrev Props := List (String × PVal)

/-- Lookup `props.get(key, "")` — dict access with the empty-string default
used at `build.py` lines 202-211. -/
def propsGet (props : Props) (key : String) : PVal :=
  match props.find? (fun kv => kv.1 == key) with
  | some kv => kv.2
  | none => .pstr ""

/-- The `Ligand` dataclass of `models.py` (its declared fields, in order).
`docking` and `pose` are `Optional[dict]`, default `None`. -/
structure Ligand where
  name : String
  smiles : String := ""
  pubchem_cid : String := ""
  chembl_id : String := ""
  notes : String := ""
  iupac : String := ""
  formula : String := ""
  mw : String := ""
  xlogp : String := ""
  hbd : String := ""
  hba : String := ""
  tpsa : String := ""
  rotb : String := ""
  image_2d : String := ""
  conformer_sdf : String := ""
  docking : Option (List (String × Val)) := none
  pose : Option (List (String × Val)) := none
deriving Repr

/-- Python truthiness of an `Optional[dict]` field: `None` and `{}` are falsy. -/
def optDictTruthy : Option (List (String × Val)) → Bool
  | none => false
  | some d => !d.isEmpty

/-- Serialization `Ligand.to_dict` (`models.py` lines 31-38): `asdict(self)` lists every
dataclass field in declaration order, then the `docking` and `pose` entries
are popped again when falsy ("Remove empty docking/pose for cleanliness"). -/
def Ligand.to_dict (l : Ligand) : List (String × Val) :=
  [("name", .vs l.name), ("smiles", .vs l.smiles),
   ("pubchem_cid", .vs l.pubchem_cid), ("chembl_id", .vs l.chembl_id),
   ("notes", .vs l.notes), ("iupac", .vs l.iupac), ("formula", .vs l.formula),
   ("mw", .vs l.mw), ("xlogp", .vs l.xlogp), ("hbd", .vs l.hbd),
   ("hba", .vs l.hba), ("tpsa", .vs l.tpsa), ("rotb", .vs l.rotb),
   ("image_2d", .vs l.image_2d), ("conformer_sdf", .vs l.conformer_sdf)]
  ++ (if optDictTruthy l.docking then [("docking", .vdict (l.docking.getD []))] else [])
  ++ (if optDictTruthy l.pose then [("pose", .vdict (l.pose.getD []))] else [])

/-- The keys of a modelled dict. -/
def dictKeys (d : List (String × Val)) : List String := d.map Prod.fst

/-- Whether a modelled dict has a key. -/
def dictHasKey (d : List (String × Val)) (k : String) : Bool :=
  d.any (fun kv => kv.1 == k)

/-- Lookup in a modelled dict. -/
def dictGet (d : List (String × Val)) (k : String) : Option Val :=
  (d.find? (fun kv => kv.1 == k)).map Prod.snd

/-- The PubChem property merge, `build.py` lines 202-211 (executed only when
`props` is non-empty).  Line 203 keeps an existing SMILES
(`lig.smiles or props.get(...) or ""`); lines 204-211 each read
`props.get(K, "") or lig.f` — the fetched value first — wrapped in `str(...)`
for every field except `iupac`. -/
def mergeProps (props : Props) (lig : Ligand) : Ligand :=
  { lig with
    smiles := if lig.smiles == "" then
        (if (propsGet props "CanonicalSMILES").truthy then
          (propsGet props "CanonicalSMILES").render else "")
      else lig.smiles
    iupac := if (propsGet props "IUPACName").truthy then
        (propsGet props "IUPACName").render else lig.iupac
    formula := if (propsGet props "MolecularFormula").truthy then
        (propsGet props "MolecularFormula").render else lig.formula
    mw := if (propsGet props "MolecularWeight").truthy then
        (propsGet props "MolecularWeight").render else lig.mw
    xlogp := if (propsGet props "XLogP").truthy then
        (propsGet props "XLogP").render else lig.xlogp
    hbd := if (propsGet props "HBondDonorCount").truthy then
        (propsGet props "HBondDonorCount").render else lig.hbd
    hba := if (propsGet props "HBondAcceptorCount").truthy then
        (propsGet props "HBondAcceptorCount").render else lig.hba
    tpsa := if (propsGet props "TPSA").truthy then
        (propsGet props "TPSA").render else lig.tpsa
    rotb := if (propsGet props "RotatableBondCount").truthy then
        (propsGet props "RotatableBondCount").render else lig.rotb }

/-- C4: for every `Ligand`, the dict produced by `Ligand.to_dict` contains a
`"docking"` key exactly when the `docking` value of the ligand is truthy (set and
non-empty), and a `"pose"` key exactly when `pose` is truthy; in particular
both keys are absent when those values were never set (`None`). -/
theorem C4_to_dict_omits_empty_docking_pose (l : Ligand) :
    (("docking" ∈ dictKeys l.to_dict) ↔ optDictTruthy l.docking = true) ∧
    (("pose" ∈ dictKeys l.to_dict) ↔ optDictTruthy l.pose = true) := by
  unfold Ligand.to_dict dictKeys
  cases hd : optDictTruthy l.docking <;> cases hp : optDictTruthy l.pose <;> simp [hd, hp]

/-- C1 is false as stated: a ligand whose `iupac` field is already non-empty
has it overwritten by the fetched `IUPACName` (`build.py` line 204 reads
`props.get("IUPACName", "") or lig.iupac`, fetched value first). -/
theorem C1_counterexample :
    (mergeProps [("IUPACName", PVal.pstr "fetched-iupac")]
        { name := "crizotinib", iupac := "prior-iupac" }).iupac = "fetched-iupac" ∧
    (mergeProps [("IUPACName", PVal.pstr "fetched-iupac")]
        { name := "crizotinib", iupac := "prior-iupac" }).iupac ≠ "prior-iupac" := by
  constructor
  · rfl
  · decide

/-- C1 (amended): merging a non-empty fetched property set keeps an existing
non-empty `smiles` (first non-empty wins for `smiles` only); every other
property field (`iupac`, `formula`, `mw`, `xlogp`, `hbd`, `hba`, `tpsa`,
`rotb`) takes the fetched value whenever that value is truthy, and keeps its
prior value only when the fetched value is falsy or absent. -/
theorem C1_merge_fetched_wins (props : Props) (lig : Ligand) (hps : props ≠ [])
    (hs : lig.smiles ≠ "") :
    (mergeProps props lig).smiles = lig.smiles ∧
    ((mergeProps props lig).iupac =
      if (propsGet props "IUPACName").truthy then (propsGet props "IUPACName").render
      else lig.iupac) ∧
    ((mergeProps props lig).formula =
      if (propsGet props "MolecularFormula").truthy then (propsGet props "MolecularFormula").render
      else lig.formula) ∧
    ((mergeProps props lig).mw =
      if (propsGet props "MolecularWeight").truthy then (propsGet props "MolecularWeight").render
      else lig.mw) ∧
    ((mergeProps props lig).xlogp =
      if (propsGet props "XLogP").truthy then (propsGet props "XLogP").render
      else lig.xlogp) ∧
    ((mergeProps props lig).hbd =
      if (propsGet props "HBondDonorCount").truthy then (propsGet props "HBondDonorCount").render
      else lig.hbd) ∧
    ((mergeProps props lig).hba =
      if (propsGet props "HBondAcceptorCount").truthy then (propsGet props "HBondAcceptorCount").render
      else lig.hba) ∧
    ((mergeProps props lig).tpsa =
      if (propsGet props "TPSA").truthy then (propsGet props "TPSA").render
      else lig.tpsa) ∧
    ((mergeProps props lig).rotb =
      if (propsGet props "RotatableBondCount").truthy then (propsGet props "RotatableBondCount").render
      else lig.rotb) := by
  refine ⟨?_, rfl, rfl, rfl, rfl, rfl, rfl, rfl, rfl⟩
  simp only [mergeProps]
  simp [beq_iff_eq, hs]

/-- Witness for `C1_merge_fetched_wins` at a concrete ligand and property set. -/
theorem C1_merge_fetched_wins_witness :
    (mergeProps [("IUPACName", PVal.pstr "n1"), ("TPSA", PVal.pnum "0.0" true)]
        { name := "ceritinib", smiles := "CC", iupac := "old", tpsa := "77" }).smiles = "CC" ∧
    (mergeProps [("IUPACName", PVal.pstr "n1"), ("TPSA", PVal.pnum "0.0" true)]
        { name := "ceritinib", smiles := "CC", iupac := "old", tpsa := "77" }).iupac =
      (if (propsGet [("IUPACName", PVal.pstr "n1"), ("TPSA", PVal.pnum "0.0" true)]
          "IUPACName").truthy then
        (propsGet [("IUPACName", PVal.pstr "n1"), ("TPSA", PVal.pnum "0.0" true)]
          "IUPACName").render
      else "old") := by
  have h := C1_merge_fetched_wins
    [("IUPACName", PVal.pstr "n1"), ("TPSA", PVal.pnum "0.0" true)]
    { name := "ceritinib", smiles := "CC", iupac := "old", tpsa := "77" }
    (by decide) (by decide)
  exact ⟨h.1, h.2.1⟩

/-! ## `_safe_slug` (`build.py` lines 31-36) -/

/-- Characters kept verbatim by the regex `[^A-Za-z0-9._-]+` in `_safe_slug`. -/
def isSlugChar (c : Char) : Bool :=
  ('A' ≤ c && c ≤ 'Z') || ('a' ≤ c && c ≤ 'z') || ('0' ≤ c && c ≤ '9') ||
    c == '.' || c == '_' || c == '-'

/-- ASCII whitespace recognised by the Python `str.strip()` / `str.split()`
(space, tab, newline, carriage return, vertical tab, form feed). -/
def isPySpace (c : Char) : Bool :=
  c == ' ' || c == '\t' || c == '\n' || c == '\r' || c == '\x0b' || c == '\x0c'

/-- Python `str.strip()` on a character list (ASCII whitespace). -/
def pyStrip (cs : List Char) : List Char :=
  ((cs.dropWhile isPySpace).reverse.dropWhile isPySpace).reverse

/-- Python `str.strip()` at the `String` level. -/
def pyStripStr (s : String) : String := (pyStrip s.toList).asString

/-- Substitution `re.sub` of the pattern `[^A-Za-z0-9._-]+` by `_`: each maximal run of disallowed
characters is replaced by a single underscore.  The boolean tracks whether the
previous character belonged to a disallowed run. -/
def slugSub (inRun : Bool) : List Char → List Char
  | [] => []
  | c :: rest =>
    if isSlugChar c then c :: slugSub false rest
    else if inRun then slugSub true rest
    else '_' :: slugSub true rest

/-- Function `_safe_slug` (`build.py` lines 31-36): strip, replace disallowed runs by
`_`, then `s[:80] if s else "item"`. -/
def safeSlugChars (cs : List Char) : List Char :=
  let s := slugSub false (pyStrip cs)
  if s = [] then "item".toList else s.take 80

/-- Function `_safe_slug` at the `String` level. -/
def safeSlug (s : String) : String := (safeSlugChars s.toList).asString

theorem slugSub_allowed (b : Bool) (cs : List Char) :
    ∀ c ∈ slugSub b cs, isSlugChar c = true := by
  induction cs generalizing b with
  | nil => intro c hc; simp [slugSub] at hc
  | cons x rest ih =>
    intro c hc
    by_cases hx : isSlugChar x
    · simp only [slugSub, hx, if_true, List.mem_cons] at hc
      rcases hc with rfl | hc
      · exact hx
      · exact ih false c hc
    · cases b with
      | true =>
        simp only [slugSub, hx, if_false, if_true] at hc
        exact ih true c hc
      | false =>
        simp only [slugSub, hx, if_false, Bool.false_eq_true, List.mem_cons] at hc
        rcases hc with rfl | hc
        · decide
        · exact ih true c hc

/-- C10: `_safe_slug` always returns a non-empty string of at most 80
characters drawn from `[A-Za-z0-9._-]`, and maps every empty or all-whitespace
input to `"item"`. -/
theorem C10_safe_slug_shape (s : String) :
    safeSlug s ≠ "" ∧ (safeSlug s).length ≤ 80 ∧
    (∀ c ∈ (safeSlug s).toList, isSlugChar c = true) ∧
    (s.toList.all isPySpace = true → safeSlug s = "item") := by
  refine ⟨?_, ?_, ?_, ?_⟩
  · show (safeSlugChars s.toList).asString ≠ ""
    intro h
    have hdata : safeSlugChars s.toList = [] := congrArg String.data h
    unfold safeSlugChars at hdata
    by_cases he : slugSub false (pyStrip s.toList) = []
    · rw [if_pos he] at hdata
      exact absurd hdata (by decide)
    · rw [if_neg he] at hdata
      rcases List.take_eq_nil_iff.mp hdata with h80 | hnil
      · exact absurd h80 (by decide)
      · exact he hnil
  · show (safeSlugChars s.toList).asString.length ≤ 80
    have hlen : (safeSlugChars s.toList).asString.length = (safeSlugChars s.toList).length := rfl
    rw [hlen]
    unfold safeSlugChars
    by_cases he : slugSub false (pyStrip s.toList) = []
    · rw [if_pos he]; decide
    · rw [if_neg he, List.length_take]
      exact min_le_left _ _
  · intro c hc
    have hc : c ∈ safeSlugChars s.toList := hc
    unfold safeSlugChars at hc
    by_cases he : slugSub false (pyStrip s.toList) = []
    · rw [if_pos he] at hc
      fin_cases hc <;> decide
    · rw [if_neg he] at hc
      exact slugSub_allowed false _ c (List.take_subset 80 _ hc)
  · intro hws
    have hdrop : s.toList.dropWhile isPySpace = [] :=
      List.dropWhile_eq_nil_iff.mpr fun x hx => (List.all_eq_true.mp hws) x hx
    have hstrip : pyStrip s.toList = [] := by
      unfold pyStrip
      rw [hdrop]
      rfl
    show (safeSlugChars s.toList).asString = "item"
    unfold safeSlugChars
    rw [hstrip]
    rfl

/-- Witness for `C10_safe_slug_shape`: the all-whitespace input `"  "` maps to
`"item"`, which is non-empty. -/
theorem C10_safe_slug_shape_witness : safeSlug "  " = "item" ∧ safeSlug "  " ≠ "" :=
  ⟨(C10_safe_slug_shape "  ").2.2.2 (by decide), (C10_safe_slug_shape "  ").1⟩

/-! ## `read_ligands_csv_tsv` (`utils/io.py` lines 11-28)

A parsed CSV/TSV row (as produced by `csv.DictReader`) is an association
list from header name to an optional cell value: `none` models both a missing
key (`row.get(k)` is `None`) and the `None` rest-value of a short row. -/

/-- A `csv.DictReader` row. -/
abbrev Row := List (String × Option String)

/-- Lookup `row.get(k)` — `None` when the header is absent. -/
def rowGet (r : Row) (k : String) : Option String :=
  match r.find? (fun kv => kv.1 == k) with
  | some kv => kv.2
  | none => none

/-- Python `a or b or ... or ""`: the first truthy (non-`None`, non-empty)
value, else `""`. -/
def pyOrChain : List (Option String) → String
  | [] => ""
  | none :: rest => pyOrChain rest
  | some s :: rest => if s == "" then pyOrChain rest else s

/-- The name of the row: `(row.get("name") or row.get("Name") or "").strip()`. -/
def rowName (r : Row) : String := pyStripStr (pyOrChain [rowGet r "name", rowGet r "Name"])

/-- The `Ligand(...)` constructed from a row (`utils/io.py` lines 21-27). -/
def ligandOfRow (r : Row) : Ligand :=
  { name := rowName r
    smiles := pyStripStr (pyOrChain [rowGet r "smiles", rowGet r "SMILES"])
    pubchem_cid := pyStripStr (pyOrChain
      [rowGet r "pubchem_cid", rowGet r "PubChemCID", rowGet r "cid"])
    chembl_id := pyStripStr (pyOrChain [rowGet r "chembl_id", rowGet r "ChEMBL"])
    notes := pyStripStr (pyOrChain [rowGet r "notes", rowGet r "Notes"]) }

/-- Reader `read_ligands_csv_tsv` (`utils/io.py` lines 11-28): rows whose stripped
name is empty are skipped (`continue`); every other row yields a `Ligand`. -/
def read_ligands_csv_tsv : List Row → List Ligand
  | [] => []
  | r :: rest =>
    if rowName r == "" then read_ligands_csv_tsv rest
    else ligandOfRow r :: read_ligands_csv_tsv rest

/-- C7: a row whose name (under header alias `name` or `Name`) is missing or
blank is skipped, while every other row is read and returned in order; the
read as a whole is total and never fails. -/
theorem C7_blank_name_skipped (rows : List Row) :
    read_ligands_csv_tsv rows =
      (rows.filter (fun r => !(rowName r == ""))).map ligandOfRow := by
  induction rows with
  | nil => rfl
  | cons r rest ih =>
    by_cases h : rowName r == "" <;>
      simp [read_ligands_csv_tsv, List.filter_cons, h, ih]

/-! ## Vina wrapper (`docking/vina.py`) -/

/-- Outcome of a `subprocess.run(..., capture_output=True, text=True)`. -/
structure Proc where
  returncode : Int
  stdout : String
  stderr : String
deriving Repr

/-- Python `" ".join(cmd)`. -/
def joinSpace : List String → String
  | [] => ""
  | [x] => x
  | x :: y :: rest => x ++ " " ++ joinSpace (y :: rest)

/-- The `RuntimeError` message raised by `_run` (`vina.py` lines 8-14):
an f-string joining the command with spaces, then appending the captured
stdout and stderr under STDOUT/STDERR banners. -/
def cmdFailMsg (cmd : List String) (p : Proc) : String :=
  "Command failed: " ++ joinSpace cmd ++ "\n\nSTDOUT:\n" ++ p.stdout ++
    "\n\nSTDERR:\n" ++ p.stderr

/-- Function `_run` (`vina.py` lines 8-14): raise on a non-zero return code, otherwise
hand the completed process back. -/
def runCheck (cmd : List String) (p : Proc) : Except String Proc :=
  if p.returncode ≠ 0 then .error (cmdFailMsg cmd p) else .ok p

/-- The argument vector assembled by `run_vina` (`vina.py` lines 31-45);
box coordinates are carried as their `str(...)` rendering. -/
def vinaCmd (vina_exe receptor_pdbqt ligand_pdbqt out_pdbqt log_path : String)
    (center size : String × String × String) (exhaustiveness num_modes : Int) :
    List String :=
  [vina_exe, "--receptor", receptor_pdbqt, "--ligand", ligand_pdbqt,
   "--center_x", center.1, "--center_y", center.2.1, "--center_z", center.2.2,
   "--size_x", size.1, "--size_y", size.2.1, "--size_z", size.2.2,
   "--exhaustiveness", toString exhaustiveness, "--num_modes", toString num_modes,
   "--out", out_pdbqt, "--log", log_path]

/-- Python `line.split()` (split on runs of ASCII whitespace, no empties). -/
def tokenize (cs : List Char) : List String :=
  match cs with
  | [] => []
  | c :: rest =>
    if isPySpace c then tokenize rest
    else ((c :: rest).takeWhile (fun d => !(isPySpace d))).asString ::
      tokenize (rest.dropWhile (fun d => !(isPySpace d)))
termination_by cs.length
decreasing_by
  · simp_wf
  · simp_wf
    have := (List.dropWhile_sublist (l := rest) (fun d => !(isPySpace d))).length_le
    omega

/-- Whether `line.strip().startswith("1")` holds (the second disjunct
`startswith("1 ")` of `vina.py` line 54 is subsumed by the first). -/
def stripStartsWith1 (line : String) : Bool :=
  match pyStrip line.toList with
  | '1' :: _ => true
  | _ => false

/-- Best-affinity extraction from the Vina log (`vina.py` lines 50-60): the
first table row starting with `1` that has at least two whitespace-separated
tokens yields its second token (`float(...)` conversion is not modelled; the
token is carried verbatim and no claim depends on it). -/
def parseBest : List String → Val
  | [] => .vnone
  | line :: rest =>
    if stripStartsWith1 line then
      let parts := tokenize line.toList
      if 2 ≤ parts.length then .vs (parts[1]?.getD "") else parseBest rest
    else parseBest rest

/-- Function `run_vina` (`vina.py` lines 17-67): run the external process through
`_run` and, on success, return the result dict. -/
def run_vina (vina_exe receptor_pdbqt ligand_pdbqt out_pdbqt log_path : String)
    (center size : String × String × String) (exhaustiveness num_modes : Int)
    (p : Proc) (logLines : List String) : Except String (List (String × Val)) :=
  match runCheck (vinaCmd vina_exe receptor_pdbqt ligand_pdbqt out_pdbqt log_path
      center size exhaustiveness num_modes) p with
  | .error e => .error e
  | .ok _ =>
    .ok [("backend", .vs "vina"),
         ("best_affinity_kcal_mol", parseBest logLines),
         ("out_pdbqt", .vs out_pdbqt),
         ("log", .vs log_path)]

/-- Predicate: `needle` occurs as a contiguous substring of `hay`. -/
def strHasSub (hay needle : String) : Prop := ∃ u v : String, hay = u ++ needle ++ v

/-- C6: whenever the external docking process exits non-zero, `run_vina`
raises (returns no result dict), and the raised message contains both the
captured stdout and the captured stderr. -/
theorem C6_run_vina_nonzero_raises
    (vina_exe receptor_pdbqt ligand_pdbqt out_pdbqt log_path : String)
    (center size : String × String × String) (exhaustiveness num_modes : Int)
    (p : Proc) (logLines : List String) (h : p.returncode ≠ 0) :
    run_vina vina_exe receptor_pdbqt ligand_pdbqt out_pdbqt log_path
        center size exhaustiveness num_modes p logLines
      = .error (cmdFailMsg (vinaCmd vina_exe receptor_pdbqt ligand_pdbqt
          out_pdbqt log_path center size exhaustiveness num_modes) p) ∧
    strHasSub (cmdFailMsg (vinaCmd vina_exe receptor_pdbqt ligand_pdbqt
        out_pdbqt log_path center size exhaustiveness num_modes) p) p.stdout ∧
    strHasSub (cmdFailMsg (vinaCmd vina_exe receptor_pdbqt ligand_pdbqt
        out_pdbqt log_path center size exhaustiveness num_modes) p) p.stderr := by
  refine ⟨?_, ?_, ?_⟩
  · simp [run_vina, runCheck, h]
  · exact ⟨"Command failed: " ++ joinSpace (vinaCmd vina_exe receptor_pdbqt ligand_pdbqt
        out_pdbqt log_path center size exhaustiveness num_modes) ++ "\n\nSTDOUT:\n",
      "\n\nSTDERR:\n" ++ p.stderr, by simp [cmdFailMsg, String.append_assoc]⟩
  · exact ⟨"Command failed: " ++ joinSpace (vinaCmd vina_exe receptor_pdbqt ligand_pdbqt
        out_pdbqt log_path center size exhaustiveness num_modes) ++ "\n\nSTDOUT:\n" ++
        p.stdout ++ "\n\nSTDERR:\n", "", by simp [cmdFailMsg, String.append_assoc]⟩

/-- Witness for `C6_run_vina_nonzero_raises` at a concrete failing process. -/
theorem C6_run_vina_nonzero_raises_witness :
    run_vina "vina" "rec.pdbqt" "lig.pdbqt" "out.pdbqt" "run.log"
        ("1.0", "2.0", "3.0") ("20.0", "20.0", "20.0") 8 9
        { returncode := 1, stdout := "parse error near line 3", stderr := "bad receptor" } []
      = .error (cmdFailMsg (vinaCmd "vina" "rec.pdbqt" "lig.pdbqt" "out.pdbqt" "run.log"
          ("1.0", "2.0", "3.0") ("20.0", "20.0", "20.0") 8 9)
          { returncode := 1, stdout := "parse error near line 3", stderr := "bad receptor" }) ∧
    strHasSub (cmdFailMsg (vinaCmd "vina" "rec.pdbqt" "lig.pdbqt" "out.pdbqt" "run.log"
        ("1.0", "2.0", "3.0") ("20.0", "20.0", "20.0") 8 9)
        { returncode := 1, stdout := "parse error near line 3", stderr := "bad receptor" })
      "parse error near line 3" := by
  have h := C6_run_vina_nonzero_raises "vina" "rec.pdbqt" "lig.pdbqt" "out.pdbqt" "run.log"
    ("1.0", "2.0", "3.0") ("20.0", "20.0", "20.0") 8 9
    { returncode := 1, stdout := "parse error near line 3", stderr := "bad receptor" } []
    (by decide)
  exact ⟨h.1, h.2.1⟩

/-! ## SwissDock poll loop (`docking/swissdock.py` lines 101-144) -/

/-- Python `str.lower()` restricted to ASCII letters (the keyword tests of the
poll loop only involve ASCII). -/
def pyLowerChar (c : Char) : Char :=
  if 'A' ≤ c && c ≤ 'Z' then Char.ofNat (c.toNat + 32) else c

/-- Test whether `needle` starts `hay` (character lists). -/
def listStartsWith : List Char → List Char → Bool
  | [], _ => true
  | _ :: _, [] => false
  | a :: as, b :: bs => a == b && listStartsWith as bs

/-- Test whether `needle` occurs contiguously in `hay` (character lists). -/
def listHasSub (needle : List Char) : List Char → Bool
  | [] => needle.isEmpty
  | c :: rest => listStartsWith needle (c :: rest) || listHasSub needle rest

/-- Python `kw in status.lower()` for a lowercase ASCII keyword `kw`. -/
def containsKw (kw status : String) : Bool :=
  listHasSub kw.toList (status.toList.map pyLowerChar)

/-- Result of the poll loop of `submit_and_wait`. -/
inductive PollOutcome where
  | finished (status : String)
  | jobFailed (status : String)
  | timedOut
deriving Repr, DecidableEq

/-- The poll loop (`swissdock.py` lines 129-141): each polled status is first
tested for `"finished"`/`"done"` (break to success), then for
`"error"`/`"failed"` (raise); the wall-clock timeout is modelled as
exhausting the list of polled statuses. -/
def pollLoop : List String → PollOutcome
  | [] => .timedOut
  | st :: rest =>
    if containsKw "finished" st || containsKw "done" st then .finished st
    else if containsKw "error" st || containsKw "failed" st then .jobFailed st
    else pollLoop rest

/-- Function `submit_and_wait` after the submission calls (`swissdock.py` lines
126-144): on a successful poll the result archive is downloaded
(`retrievesession`) and the result dict returned; otherwise the loop raises
and no download happens. -/
def submit_and_wait (name session archivePath : String) (statuses : List String) :
    Except String (List (String × Val)) :=
  match pollLoop statuses with
  | .finished st =>
    .ok [("backend", .vs "swissdock"), ("session", .vs session),
         ("status", .vs st), ("archive", .vs archivePath)]
  | .jobFailed st => .error ("SwissDock job failed (" ++ name ++ "): " ++ st)
  | .timedOut => .error ("SwissDock job timed out (" ++ name ++ "), session " ++ session)

/-- Whether `submit_and_wait` reaches its `retrievesession` download call for
the given sequence of polled statuses. -/
def retrievesessionCalled (statuses : List String) : Bool :=
  match pollLoop statuses with
  | .finished _ => true
  | _ => false

/-- C3 is false as stated: a status string that contains `"failed"` but also
contains `"finished"` takes the success branch (checked first), so
`submit_and_wait` does not raise and `retrievesession` is called. -/
theorem C3_counterexample :
    containsKw "failed" "Docking finished (2 poses failed)" = true ∧
    pollLoop ["Docking finished (2 poses failed)"]
      = .finished "Docking finished (2 poses failed)" ∧
    retrievesessionCalled ["Docking finished (2 poses failed)"] = true ∧
    submit_and_wait "crizotinib" "42" "crizotinib.tgz" ["Docking finished (2 poses failed)"]
      = .ok [("backend", .vs "swissdock"), ("session", .vs "42"),
             ("status", .vs "Docking finished (2 poses failed)"),
             ("archive", .vs "crizotinib.tgz")] := by
  refine ⟨by decide, by decide, by decide, rfl⟩

/-- C3 (amended): a polled status that contains `"failed"` and contains
neither `"finished"` nor `"done"` (case-insensitive) makes `submit_and_wait`
raise on that poll iteration, and `retrievesession` is never called. -/
theorem C3_failed_raises_before_download (name session archive : String)
    (pre : List String) (st : String) (rest : List String)
    (hpre : ∀ t ∈ pre, containsKw "finished" t = false ∧ containsKw "done" t = false ∧
      containsKw "error" t = false ∧ containsKw "failed" t = false)
    (hf : containsKw "failed" st = true)
    (hnf : containsKw "finished" st = false) (hnd : containsKw "done" st = false) :
    pollLoop (pre ++ st :: rest) = .jobFailed st ∧
    retrievesessionCalled (pre ++ st :: rest) = false ∧
    submit_and_wait name session archive (pre ++ st :: rest)
      = .error ("SwissDock job failed (" ++ name ++ "): " ++ st) := by
  have key : pollLoop (pre ++ st :: rest) = .jobFailed st := by
    induction pre with
    | nil => simp [pollLoop, hnf, hnd, hf]
    | cons t ts ih =>
      obtain ⟨h1, h2, h3, h4⟩ := hpre t (List.mem_cons_self t ts)
      simp only [List.cons_append, pollLoop, h1, h2, h3, h4, Bool.or_self, if_false,
        Bool.false_eq_true]
      exact ih fun t' ht' => hpre t' (List.mem_cons_of_mem t ht')
  exact ⟨key, by simp [retrievesessionCalled, key], by simp [submit_and_wait, key]⟩

/-- Witness for `C3_failed_raises_before_download` at a concrete poll trace. -/
theorem C3_failed_raises_before_download_witness :
    pollLoop ["RUNNING", "Docking failed: no poses"] = .jobFailed "Docking failed: no poses" ∧
    retrievesessionCalled ["RUNNING", "Docking failed: no poses"] = false ∧
    submit_and_wait "lorlatinib" "7" "lorlatinib.tgz" ["RUNNING", "Docking failed: no poses"]
      = .error ("SwissDock job failed (" ++ "lorlatinib" ++ "): " ++ "Docking failed: no poses") :=
  C3_failed_raises_before_download "lorlatinib" "7" "lorlatinib.tgz"
    ["RUNNING"] "Docking failed: no poses" []
    (by decide) (by decide) (by decide) (by decide)

/-! ## The build pipeline (`build.py` lines 69-356)

External effects are oracles: an `Env` holds, for one ligand, the outcome
each HTTP call, subprocess or filesystem probe would have produced (an
`Except` models a call that may raise; the build catches those exceptions as
written in the source). -/

/-- Build configuration after the normalisation at `build.py` lines 98-108 and
the docking setup at lines 166-169.  `dockMode` is the lowercased backend
string; the box is `none` when the corresponding CLI string was empty. -/
structure BuildCfg where
  dockMode : String
  dockCenter : Option (String × String × String)
  dockSize : Option (String × String × String)
  receptorProvided : Bool
  receptorExists : Bool
  receptorPdbqt : String
  vinaExe : String
  exhaustiveness : Int
  swissdockRetrieve : Bool
  noChembl : Bool
  rdkitOk : Bool

/-- Per-ligand outcomes of the external world. -/
structure Env where
  resolveCid : Except String String
  propsByCid : Except String Props
  propsBySmiles : Except String Props
  chemblId : Except String String
  pngByCid : Except String Bool
  pngBySmiles : Except String Bool
  draw2d : Bool
  sdf3d : Except String Bool
  obabelProc : Proc
  vinaProc : Proc
  vinaLog : List String
  swissdockSession : String
  pdbqtToPdbOk : Bool

/-- The methods defined by `class SwissDockClient` (`swissdock.py` lines
147-164): `__init__` and `submit` only. -/
def swissDockClientMethods : List String := ["__init__", "submit"]

/-- Python attribute lookup on a `SwissDockClient` instance: a name that is
not among the methods of the class raises `AttributeError` (message text
abbreviated; no claim depends on its wording). -/
def pyGetMethod (methods : List String) (m : String) : Except String Unit :=
  if m ∈ methods then .ok ()
  else .error ("AttributeError: SwissDockClient object has no attribute " ++ m)

/-- Python dict assignment `d[k] = v`: replace in place when the key exists,
append otherwise. -/
def dictSet (d : List (String × Val)) (k : String) (v : Val) : List (String × Val) :=
  if d.any (fun kv => kv.1 == k) then
    d.map (fun kv => if kv.1 == k then (k, v) else kv)
  else d ++ [(k, v)]

/-- The error record attached when docking is requested without a box
(`build.py` line 265). -/
def missingBoxRecord (mode : String) : List (String × Val) :=
  [("backend", .vs mode),
   ("error", .vs "Docking requested but --center/--size not provided")]

/-- The `try:` body of the SwissDock branch (`build.py` lines 276-291): look
up and call `client.submit_vina_from_smiles`, build the session record, then
— when retrieval was requested — look up and call `client.retrieve_session`.
An exception anywhere in the body is caught at line 292 and replaces
`lig.docking` with the error record. -/
def swissdockAttempt (env : Env) (cfg : BuildCfg) (slug outDir : String)
    (c sz : String × String × String) : Except String (List (String × Val)) := do
  let _ ← pyGetMethod swissDockClientMethods "submit_vina_from_smiles"
  let base : List (String × Val) :=
    [("backend", .vs "swissdock"), ("session", .vs env.swissdockSession),
     ("center", .vtup [c.1, c.2.1, c.2.2]), ("size", .vtup [sz.1, sz.2.1, sz.2.2])]
  if cfg.swissdockRetrieve then do
    let _ ← pyGetMethod swissDockClientMethods "retrieve_session"
    pure (dictSet base "result_archive" (.vs (outDir ++ "/" ++ slug ++ "_swissdock.tgz")))
  else
    pure base

/-- `str(subprocess.CalledProcessError)` for the `obabel` call run with
`check=True` (`build.py` line 315); the quoted command text is elided, no
claim depends on the wording. -/
def calledProcessErrorMsg (rc : Int) : String :=
  "Command obabel returned non-zero exit status " ++ toString rc ++ "."

/-- The Vina branch of the docking step (`build.py` lines 295-337), given
that a box was supplied.  Returns the new `(docking, pose)` pair. -/
def vinaBranch (env : Env) (cfg : BuildCfg) (slug outDir : String)
    (c sz : String × String × String) (lig : Ligand) :
    Option (List (String × Val)) × Option (List (String × Val)) :=
  if cfg.receptorPdbqt = "" then
    (some [("backend", .vs "vina"), ("error", .vs "Vina requires --receptor-pdbqt")], lig.pose)
  else if lig.smiles = "" then
    (some [("backend", .vs "vina"),
           ("error", .vs "Vina path here expects you provide ligand PDBQT (extend to auto-prep).")],
     lig.pose)
  else if env.obabelProc.returncode ≠ 0 then
    (some [("backend", .vs "vina"), ("error", .vs (calledProcessErrorMsg env.obabelProc.returncode))],
     lig.pose)
  else
    match run_vina cfg.vinaExe cfg.receptorPdbqt (outDir ++ "/" ++ slug ++ ".pdbqt")
        (outDir ++ "/" ++ slug ++ "_vina_out.pdbqt") (outDir ++ "/" ++ slug ++ "_vina.log")
        c sz cfg.exhaustiveness 9 env.vinaProc env.vinaLog with
    | .error e => (some [("backend", .vs "vina"), ("error", .vs e)], lig.pose)
    | .ok meta =>
      let d := dictSet (dictSet meta "pose" (.vs (outDir ++ "/" ++ slug ++ "_vina_out.pdbqt")))
        "log" (.vs (outDir ++ "/" ++ slug ++ "_vina.log"))
      if env.pdbqtToPdbOk then
        (some d, some [("format", .vs "pdb"),
                       ("path", .vs (outDir ++ "/" ++ slug ++ "_vina_pose.pdb"))])
      else (some d, lig.pose)

/-- The optional docking step (`build.py` lines 262-337).  Returns the new
`(docking, pose)` pair of the ligand; every failure inside a backend branch is
caught there and turned into an error record, so the step itself is total
(it raises nothing). -/
def dockStep (env : Env) (cfg : BuildCfg) (slug outDir : String) (lig : Ligand) :
    Option (List (String × Val)) × Option (List (String × Val)) :=
  if cfg.dockMode = "swissdock" ∨ cfg.dockMode = "vina" then
    match cfg.dockCenter, cfg.dockSize with
    | some c, some sz =>
      if cfg.dockMode = "swissdock" then
        if !(cfg.receptorProvided && cfg.receptorExists) then
          (some [("backend", .vs "swissdock"), ("error", .vs "SwissDock needs --receptor (PDB file).")],
           lig.pose)
        else if lig.smiles = "" then
          (some [("backend", .vs "swissdock"),
                 ("error", .vs "SwissDock needs SMILES (or extend client to upload MOL2).")],
           lig.pose)
        else
          match swissdockAttempt env cfg slug outDir c sz with
          | .ok d => (some d, lig.pose)
          | .error e => (some [("backend", .vs "swissdock"), ("error", .vs e)], lig.pose)
      else
        vinaBranch env cfg slug outDir c sz lig
    | none, _ => (some (missingBoxRecord cfg.dockMode), lig.pose)
    | some _, none => (some (missingBoxRecord cfg.dockMode), lig.pose)
  else (lig.docking, lig.pose)

/-- CID resolution (`build.py` lines 181-185): only when the ligand has no
CID yet; an exception degrades to the empty string. -/
def stageCid (env : Env) (lig : Ligand) : Ligand :=
  if lig.pubchem_cid = "" then
    { lig with pubchem_cid := match env.resolveCid with | .ok c => c | .error _ => "" }
  else lig

/-- The property-fetch waterfall (`build.py` lines 187-200): by CID first,
then — when still empty and a SMILES is known — by SMILES; exceptions
degrade to the empty property set. -/
def fetchedProps (env : Env) (lig : Ligand) : Props :=
  let props : Props :=
    if lig.pubchem_cid = "" then []
    else match env.propsByCid with | .ok p => p | .error _ => []
  if props = [] ∧ lig.smiles ≠ "" then
    match env.propsBySmiles with | .ok p => p | .error _ => []
  else props

/-- ChEMBL id resolution (`build.py` lines 214-218). -/
def stageChembl (env : Env) (cfg : BuildCfg) (lig : Ligand) : Ligand :=
  if ¬cfg.noChembl ∧ lig.chembl_id = "" then
    { lig with chembl_id := match env.chemblId with | .ok c => c | .error _ => "" }
  else lig

/-- Attributes the build assigns on the ligand *instance* that are not
dataclass fields of `Ligand` (`lig.out_dir` at line 176, `lig.image_png` at
line 237, `lig.ligand3d` at line 258); `dataclasses.asdict` never sees them. -/
structure InstanceExtras where
  out_dir : String
  image_png : Option String
  ligand3d : Option String
deriving Repr

/-- One iteration of the per-ligand loop (`build.py` lines 174-337).

The RDKit descriptor block (lines 240-251) reads `lig.descriptors`, which is
not a field of the `Ligand` dataclass and was never assigned, so it raises
`AttributeError`; the bare `except Exception: pass` at line 250 swallows it
and the field fills at lines 245-249 never execute — the block is a no-op on
the ligand.  The 2D-image and 3D-conformer results go to the non-field
attributes collected in `InstanceExtras`. -/
def processLigand (env : Env) (cfg : BuildCfg) (lig : Ligand) : Ligand × InstanceExtras :=
  let slug := safeSlug lig.name
  let outDir := "assets/" ++ slug
  let lig1 := stageCid env lig
  let props := fetchedProps env lig1
  let lig2 := if props = [] then lig1 else mergeProps props lig1
  let lig3 := stageChembl env cfg lig2
  let ok1 : Bool :=
    if lig3.pubchem_cid = "" then false
    else match env.pngByCid with | .ok b => b | .error _ => false
  let ok2 : Bool :=
    if !ok1 && !(lig3.smiles == "") then
      match env.pngBySmiles with | .ok b => b | .error _ => false
    else ok1
  let ok3 : Bool :=
    if !ok2 && !(lig3.smiles == "") && cfg.rdkitOk then env.draw2d else ok2
  let imagePng := if ok3 then some (outDir ++ "/" ++ slug ++ "_2d.png") else none
  let ligand3d :=
    if lig3.smiles ≠ "" ∧ cfg.rdkitOk then
      match env.sdf3d with
      | .ok true => some (outDir ++ "/" ++ slug ++ "_3d.sdf")
      | _ => none
    else none
  let dp := dockStep env cfg slug outDir lig3
  ({ lig3 with docking := dp.1, pose := dp.2 },
   { out_dir := outDir, image_png := imagePng, ligand3d := ligand3d })

/-- The hard-coded fallback ligand list (`build.py` lines 22-28). -/
def DEFAULT_LIGANDS : List Ligand :=
  [{ name := "crizotinib", notes := "1st-gen ALK/ROS1/MET inhibitor (reference drug)" },
   { name := "ceritinib", notes := "2nd-gen ALK inhibitor" },
   { name := "alectinib", notes := "2nd-gen ALK inhibitor" },
   { name := "brigatinib", notes := "2nd-gen ALK inhibitor" },
   { name := "lorlatinib", notes := "3rd-gen ALK inhibitor (macrocyclic scaffold)" }]

/-- Ligand-list selection (`build.py` lines 128-132): the CSV/TSV when a
ligand file was given, the defaults otherwise. -/
def buildLigands (csvRows : Option (List Row)) : List Ligand :=
  match csvRows with
  | some rows => read_ligands_csv_tsv rows
  | none => DEFAULT_LIGANDS

/-- The entry a ligand contributes to `data/molecules.json`
(`build.py` lines 340-343). -/
def serializedLigand (env : Env) (cfg : BuildCfg) (lig : Ligand) : List (String × Val) :=
  ((processLigand env cfg lig).1).to_dict

/-- A fully concrete external world, used to instantiate hypothesis-bearing
theorems. -/
def sampleEnv : Env :=
  { resolveCid := .ok "2044", propsByCid := .ok [], propsBySmiles := .error "HTTP 500",
    chemblId := .ok "CHEMBL601719", pngByCid := .ok true, pngBySmiles := .ok false,
    draw2d := false, sdf3d := .ok true,
    obabelProc := { returncode := 0, stdout := "", stderr := "" },
    vinaProc := { returncode := 0, stdout := "", stderr := "" },
    vinaLog := [], swissdockSession := "12345", pdbqtToPdbOk := true }

/-- C5: with a docking backend selected but the box center or size not
provided, the docking step is total (the branch makes no external call, so
nothing can raise) and attaches a structured record naming the backend and an
error message about the missing `--center`/`--size` precondition. -/
theorem C5_missing_box_structured_error (env : Env) (cfg : BuildCfg)
    (slug outDir : String) (lig : Ligand)
    (hm : cfg.dockMode = "swissdock" ∨ cfg.dockMode = "vina")
    (hbox : cfg.dockCenter = none ∨ cfg.dockSize = none) :
    (dockStep env cfg slug outDir lig).1 = some (missingBoxRecord cfg.dockMode) ∧
    dictGet (missingBoxRecord cfg.dockMode) "backend" = some (.vs cfg.dockMode) ∧
    dictGet (missingBoxRecord cfg.dockMode) "error"
      = some (.vs "Docking requested but --center/--size not provided") := by
  refine ⟨?_, by simp [missingBoxRecord, dictGet], by simp [missingBoxRecord, dictGet]⟩
  unfold dockStep
  rw [if_pos hm]
  rcases hbox with h | h
  · rw [h]
  · rw [h]
    rcases cfg.dockCenter with _ | c <;> rfl

/-- Witness for `C5_missing_box_structured_error` with the Vina backend and
no box supplied. -/
theorem C5_missing_box_structured_error_witness :
    (dockStep sampleEnv
        { dockMode := "vina", dockCenter := none, dockSize := none,
          receptorProvided := false, receptorExists := false, receptorPdbqt := "",
          vinaExe := "vina", exhaustiveness := 8, swissdockRetrieve := false,
          noChembl := false, rdkitOk := false }
        "crizotinib" "assets/crizotinib" { name := "crizotinib" }).1
      = some (missingBoxRecord "vina") :=
  (C5_missing_box_structured_error sampleEnv
    { dockMode := "vina", dockCenter := none, dockSize := none,
      receptorProvided := false, receptorExists := false, receptorPdbqt := "",
      vinaExe := "vina", exhaustiveness := 8, swissdockRetrieve := false,
      noChembl := false, rdkitOk := false }
    "crizotinib" "assets/crizotinib" { name := "crizotinib" }
    (Or.inr rfl) (Or.inl rfl)).1

/-- C8: with the SwissDock backend, an existing receptor, a non-empty SMILES
and a full box, the attached docking record still carries an `"error"` key:
`SwissDockClient` defines neither `submit_vina_from_smiles` nor
`retrieve_session`, so the attribute lookup raises and the `except` branch
stores the error record — the success branch is unreachable. -/
theorem C8_swissdock_success_unreachable (env : Env) (cfg : BuildCfg)
    (slug outDir : String) (lig : Ligand) (c sz : String × String × String)
    (hm : cfg.dockMode = "swissdock")
    (hc : cfg.dockCenter = some c) (hs : cfg.dockSize = some sz)
    (hr : cfg.receptorProvided = true) (hre : cfg.receptorExists = true)
    (hsm : lig.smiles ≠ "") :
    "submit_vina_from_smiles" ∉ swissDockClientMethods ∧
    "retrieve_session" ∉ swissDockClientMethods ∧
    (dockStep env cfg slug outDir lig).1
      = some [("backend", .vs "swissdock"),
              ("error", .vs ("AttributeError: SwissDockClient object has no attribute "
                ++ "submit_vina_from_smiles"))] ∧
    dictHasKey (((dockStep env cfg slug outDir lig).1).getD []) "error" = true := by
  have key : (dockStep env cfg slug outDir lig).1
      = some [("backend", .vs "swissdock"),
              ("error", .vs ("AttributeError: SwissDockClient object has no attribute "
                ++ "submit_vina_from_smiles"))] := by
    unfold dockStep
    rw [if_pos (Or.inl hm), hc, hs, hm]
    simp only [hr, hre, Bool.and_self, Bool.not_true, Bool.false_eq_true, if_false,
      if_neg hsm]
    rfl
  refine ⟨by decide, by decide, key, ?_⟩
  rw [key]
  rfl

/-- Witness for `C8_swissdock_success_unreachable` at a concrete
configuration. -/
theorem C8_swissdock_success_unreachable_witness :
    (dockStep sampleEnv
        { dockMode := "swissdock", dockCenter := some ("1.0", "2.0", "3.0"),
          dockSize := some ("20.0", "20.0", "20.0"), receptorProvided := true,
          receptorExists := true, receptorPdbqt := "", vinaExe := "vina",
          exhaustiveness := 8, swissdockRetrieve := true, noChembl := false,
          rdkitOk := false }
        "ceritinib" "assets/ceritinib" { name := "ceritinib", smiles := "CC" }).1
      = some [("backend", .vs "swissdock"),
              ("error", .vs ("AttributeError: SwissDockClient object has no attribute "
                ++ "submit_vina_from_smiles"))] :=
  (C8_swissdock_success_unreachable sampleEnv
    { dockMode := "swissdock", dockCenter := some ("1.0", "2.0", "3.0"),
      dockSize := some ("20.0", "20.0", "20.0"), receptorProvided := true,
      receptorExists := true, receptorPdbqt := "", vinaExe := "vina",
      exhaustiveness := 8, swissdockRetrieve := true, noChembl := false,
      rdkitOk := false }
    "ceritinib" "assets/ceritinib" { name := "ceritinib", smiles := "CC" }
    ("1.0", "2.0", "3.0") ("20.0", "20.0", "20.0")
    rfl rfl rfl rfl rfl (by decide)).2.2.1

theorem stageCid_image_2d (env : Env) (lig : Ligand) :
    (stageCid env lig).image_2d = lig.image_2d := by
  unfold stageCid; split <;> rfl

theorem stageCid_conformer_sdf (env : Env) (lig : Ligand) :
    (stageCid env lig).conformer_sdf = lig.conformer_sdf := by
  unfold stageCid; split <;> rfl

theorem stageChembl_image_2d (env : Env) (cfg : BuildCfg) (lig : Ligand) :
    (stageChembl env cfg lig).image_2d = lig.image_2d := by
  unfold stageChembl; split <;> rfl

theorem stageChembl_conformer_sdf (env : Env) (cfg : BuildCfg) (lig : Ligand) :
    (stageChembl env cfg lig).conformer_sdf = lig.conformer_sdf := by
  unfold stageChembl; split <;> rfl

/-- No stage of the per-ligand loop writes the `image_2d` dataclass field:
the generated 2D image path goes to the non-field attribute `image_png`. -/
theorem processLigand_image_2d (env : Env) (cfg : BuildCfg) (lig : Ligand) :
    ((processLigand env cfg lig).1).image_2d = lig.image_2d := by
  have e : ((processLigand env cfg lig).1).image_2d
      = (stageChembl env cfg (if fetchedProps env (stageCid env lig) = []
          then stageCid env lig
          else mergeProps (fetchedProps env (stageCid env lig)) (stageCid env lig))).image_2d :=
    rfl
  rw [e, stageChembl_image_2d]
  by_cases hp : fetchedProps env (stageCid env lig) = []
  · rw [if_pos hp]; exact stageCid_image_2d env lig
  · rw [if_neg hp]
    exact stageCid_image_2d env lig

/-- No stage of the per-ligand loop writes the `conformer_sdf` dataclass
field: the generated conformer path goes to the non-field attribute
`ligand3d`. -/
theorem processLigand_conformer_sdf (env : Env) (cfg : BuildCfg) (lig : Ligand) :
    ((processLigand env cfg lig).1).conformer_sdf = lig.conformer_sdf := by
  have e : ((processLigand env cfg lig).1).conformer_sdf
      = (stageChembl env cfg (if fetchedProps env (stageCid env lig) = []
          then stageCid env lig
          else mergeProps (fetchedProps env (stageCid env lig)) (stageCid env lig))).conformer_sdf :=
    rfl
  rw [e, stageChembl_conformer_sdf]
  by_cases hp : fetchedProps env (stageCid env lig) = []
  · rw [if_pos hp]; exact stageCid_conformer_sdf env lig
  · rw [if_neg hp]
    exact stageCid_conformer_sdf env lig

/-- Every ligand entering the loop — from the CSV/TSV or from the defaults —
starts with empty `image_2d` and `conformer_sdf`. -/
theorem buildLigands_asset_fields_empty (csvRows : Option (List Row)) :
    ∀ l ∈ buildLigands csvRows, l.image_2d = "" ∧ l.conformer_sdf = "" := by
  intro l hl
  cases csvRows with
  | none =>
    simp only [buildLigands, DEFAULT_LIGANDS, List.mem_cons, List.not_mem_nil,
      or_false] at hl
    rcases hl with rfl | rfl | rfl | rfl | rfl <;> exact ⟨rfl, rfl⟩
  | some rows =>
    simp only [buildLigands] at hl
    induction rows with
    | nil => cases hl
    | cons r rest ih =>
      simp only [read_ligands_csv_tsv] at hl
      by_cases h : rowName r == ""
      · rw [if_pos h] at hl; exact ih hl
      · rw [if_neg h] at hl
        rcases List.mem_cons.mp hl with rfl | hl'
        · exact ⟨rfl, rfl⟩
        · exact ih hl'

theorem to_dict_image_2d (l : Ligand) :
    dictGet l.to_dict "image_2d" = some (.vs l.image_2d) := by
  simp [Ligand.to_dict, dictGet, List.find?]

theorem to_dict_conformer_sdf (l : Ligand) :
    dictGet l.to_dict "conformer_sdf" = some (.vs l.conformer_sdf) := by
  simp [Ligand.to_dict, dictGet, List.find?]

/-- C9: every ligand entry serialized into `data/molecules.json` carries
`image_2d = ""` and `conformer_sdf = ""`, whatever the outside world
returned: the build writes the generated asset paths to instance attributes
(`image_png`, `ligand3d`) that are not dataclass fields, and `asdict`-based
serialization only sees dataclass fields. -/
theorem C9_asset_fields_always_empty (env : Env) (cfg : BuildCfg)
    (csvRows : Option (List Row)) (l : Ligand) (hl : l ∈ buildLigands csvRows) :
    dictGet (serializedLigand env cfg l) "image_2d" = some (.vs "") ∧
    dictGet (serializedLigand env cfg l) "conformer_sdf" = some (.vs "") := by
  obtain ⟨h1, h2⟩ := buildLigands_asset_fields_empty csvRows l hl
  constructor
  · rw [serializedLigand, to_dict_image_2d, processLigand_image_2d, h1]
  · rw [serializedLigand, to_dict_conformer_sdf, processLigand_conformer_sdf, h2]

/-- Witness for `C9_asset_fields_always_empty` on the first default ligand. -/
theorem C9_asset_fields_always_empty_witness :
    dictGet (serializedLigand sampleEnv
      { dockMode := "none", dockCenter := none, dockSize := none,
        receptorProvided := false, receptorExists := false, receptorPdbqt := "",
        vinaExe := "vina", exhaustiveness := 8, swissdockRetrieve := false,
        noChembl := false, rdkitOk := false }
      { name := "crizotinib", notes := "1st-gen ALK/ROS1/MET inhibitor (reference drug)" })
      "image_2d" = some (.vs "") :=
  (C9_asset_fields_always_empty sampleEnv
    { dockMode := "none", dockCenter := none, dockSize := none,
      receptorProvided := false, receptorExists := false, receptorPdbqt := "",
      vinaExe := "vina", exhaustiveness := 8, swissdockRetrieve := false,
      noChembl := false, rdkitOk := false }
    none
    { name := "crizotinib", notes := "1st-gen ALK/ROS1/MET inhibitor (reference drug)" }
    (by simp [buildLigands, DEFAULT_LIGANDS])).1

/-! ## `--max` / `max_ligands` (C2) -/

/-- The parameter names declared by `build_site` (`build.py` lines 69-94).
There is no `max_ligands` among them; any other keyword argument is collected
into the catch-all `**_ignored`, which the function body never reads. -/
def buildSiteParamNames : List String :=
  ["out_dir", "ligands_path", "recon_path", "receptor_path", "pdb_id", "docking",
   "docking_backend", "swissdock_retrieve", "vina_path", "vina_exe", "receptor_pdbqt",
   "box_center", "box_size", "exhaust", "max_poses", "center", "size",
   "exhaustiveness", "image_size", "no_chembl", "highlight_resi"]

/-- The ligand list `build_site` iterates (`build.py` lines 128-132 and 174).
The second argument models the keyword arguments absorbed by `**_ignored`;
the body never reads them, so the whole list is processed. -/
def buildSiteLigandList (csvRows : Option (List Row))
    (ignoredKwargs : List (String × Int)) : List Ligand :=
  buildLigands csvRows

/-- Command `_build_cmd` (`__main__.py` lines 32-46) forwards `max_ligands=args.max`
to `build_site`; since `build_site` declares no parameter of that name, the
value lands in `**_ignored`. -/
def buildCmdLigandList (csvRows : Option (List Row)) (maxLigands : Int) : List Ligand :=
  buildSiteLigandList csvRows [("max_ligands", maxLigands)]

/-- A three-row ligand CSV. -/
def c2Rows : List Row :=
  [[("name", some "crizotinib")], [("name", some "ceritinib")], [("name", some "alectinib")]]

/-- C2 describes intended behaviour the code does not implement: `build_site`
has no `max_ligands` parameter, the value of the CLI flag `--max` is swallowed by
`**_ignored`, and with `--max 1` all three ligands of a three-row list are
still processed; the processed list is independent of the max value. -/
theorem C2_max_ligand_count_ignored :
    "max_ligands" ∉ buildSiteParamNames ∧
    (buildCmdLigandList (some c2Rows) 1).length = 3 ∧
    ¬((buildCmdLigandList (some c2Rows) 1).length ≤ 1) ∧
    (∀ (csvRows : Option (List Row)) (m₁ m₂ : Int),
      buildCmdLigandList csvRows m₁ = buildCmdLigandList csvRows m₂) := by
  refine ⟨by decide, rfl, by decide, fun csvRows m₁ m₂ => rfl⟩

end ALKVisDock
